import Mathlib

/-!
Shallow embedding of the flask-jsonschema-example todo service
(`app.py` and `schemas/input_todo_schema.py`).

The service exposes three operations over a single JSON file store:
list all todos, get one by id, and create one after validating the
posted JSON body against a fixed Draft-4 JSON schema.

Modelling choices:
  * JSON values are the inductive `JVal`; a parsed request body is a
    `JVal` and a Python dict is an association list (objects decoded by
    Python `json` have unique keys; lookups take the first binding).
  * The backing file `todos.json` is the inductive `File`: it can be
    missing (`open` raises `FileNotFoundError`), unreadable (`open`
    raises a permission `OSError`), unparseable (`json.load` raises
    `ValueError`), or hold a parsed list of todos.
  * Python exceptions escaping a handler are the `Except` error branch;
    Flask turns them into a generic server error response.
  * `Draft4Validator(input_todo_schema).iter_errors` is specialised to
    the one fixed schema of the repository; validators run in schema
    key order (`type`, `properties`, `additionalProperties`,
    `required`), properties in declaration order (`id`, `userId`,
    `title`, `completed`), and non-object instances are skipped by the
    object-specific validators.  Messages elide the Python repr of the
    offending instance but are one message per violation, as the
    library produces.
-/

set_option autoImplicit false

namespace FlaskTodo

/-- A JSON value, as decoded by `request.get_json`. -/
inductive JVal where
  | null
  | bool (b : Bool)
  | num (n : Int)
  | str (s : String)
  | arr (elems : List JVal)
  | obj (fields : List (String × JVal))

/-- Python dict lookup on a decoded JSON object: first binding wins. -/
def jlookup : List (String × JVal) → String → Option JVal
  | [], _ => none
  | (k, v) :: rest, key => if k = key then some v else jlookup rest key

/-- `payload[key]` access guarded by `key in payload`: `none` when the
payload is not an object or lacks the key. -/
def JVal.get : JVal → String → Option JVal
  | .obj fs, key => jlookup fs key
  | _, _ => none

/-- `True` exactly on JSON strings (`is_type(v, "string")`). -/
def isStr : JVal → Bool
  | .str _ => true
  | _ => false

/-- `True` exactly on JSON booleans (`is_type(v, "boolean")`). -/
def isBool : JVal → Bool
  | .bool _ => true
  | _ => false

/-- Coercion used when the code reads a validated string field. -/
def asString : JVal → String
  | .str s => s
  | _ => ""

/-- Coercion used when the code reads a validated boolean field. -/
def asBool : JVal → Bool
  | .bool b => b
  | _ => false

/-- Message of a draft-4 `required` violation for property `k`. -/
def requiredMessage (k : String) : String :=
  k ++ " is a required property"

/-- Message of a draft-4 `type` violation against expected type `t`. -/
def notOfTypeMessage (t : String) : String :=
  "is not of type " ++ t

/-- Message of a draft-4 `maxLength` violation. -/
def tooLongMessage : String :=
  "is too long"

/-- Message of the draft-4 `additionalProperties: false` violation,
naming every unexpected key. -/
def additionalPropertiesMessage (extras : List String) : String :=
  "Additional properties are not allowed (" ++
    String.intercalate ", " extras ++ " unexpected)"

/-- Errors of the subschema `{"type": "string", "maxLength": 255}`
used for `id`, `userId` and `title`: the `type` keyword fires on
non-strings, and `maxLength` only inspects strings. -/
def stringPropErrors (v : JVal) : List String :=
  match v with
  | .str s => if 255 < s.length then [tooLongMessage] else []
  | _ => [notOfTypeMessage "string"]

/-- Errors of the subschema `{"type": "boolean"}` used for
`completed`. -/
def booleanPropErrors (v : JVal) : List String :=
  match v with
  | .bool _ => []
  | _ => [notOfTypeMessage "boolean"]

/-- The `properties` keyword descends into a property only when the
instance carries it. -/
def presentPropErrors (fs : List (String × JVal)) (name : String)
    (check : JVal → List String) : List String :=
  match jlookup fs name with
  | some v => check v
  | none => []

/-- Errors of the `properties` keyword of `input_todo_schema`,
in schema declaration order. -/
def propertiesErrors (fs : List (String × JVal)) : List String :=
  presentPropErrors fs "id" stringPropErrors ++
  presentPropErrors fs "userId" stringPropErrors ++
  presentPropErrors fs "title" stringPropErrors ++
  presentPropErrors fs "completed" booleanPropErrors

/-- The property names declared by `input_todo_schema`. -/
def schemaPropertyNames : List String :=
  ["id", "userId", "title", "completed"]

/-- Instance keys not declared in the schema: rejected by
`additionalProperties: false`. -/
def extraKeys (fs : List (String × JVal)) : List String :=
  (fs.map Prod.fst).filter (fun k => !(schemaPropertyNames.contains k))

/-- The `additionalProperties: false` keyword yields a single error
naming every extra key, or nothing. -/
def additionalPropertiesErrors (fs : List (String × JVal)) : List String :=
  match extraKeys fs with
  | [] => []
  | extras => [additionalPropertiesMessage extras]

/-- The draft-4 `required: ["userId", "title"]` keyword yields one
error per missing required property, in list order. -/
def requiredErrors (fs : List (String × JVal)) : List String :=
  (match jlookup fs "userId" with
   | none => [requiredMessage "userId"]
   | some _ => []) ++
  (match jlookup fs "title" with
   | none => [requiredMessage "title"]
   | some _ => [])

/-- `[error.message for error in validator.iter_errors(input)]` for
`validator = Draft4Validator(input_todo_schema)`: on a non-object only
the `type: object` keyword fires (the object keywords skip non-object
instances); on an object the keywords run in schema order. -/
def iter_errors (input : JVal) : List String :=
  match input with
  | .obj fs =>
      propertiesErrors fs ++ additionalPropertiesErrors fs ++
        requiredErrors fs
  | _ => [notOfTypeMessage "object"]

/-- A persisted todo record: the JSON object written to `todos.json`
with keys `id` (number), `userId` (string), `title` (string),
`completed` (boolean). -/
structure Todo where
  id : Int
  userId : String
  title : String
  completed : Bool
  deriving DecidableEq, Repr

/-- The state of the backing file `todos.json`. -/
inductive File where
  | missing
  | unreadable
  | corrupt
  | good (todos : List Todo)
  deriving DecidableEq, Repr

/-- The faults `get_todos` can raise: `open` fails (storage
unavailable) or `json.load` fails (corrupt state). -/
inductive LoadError where
  | storageUnavailable
  | corruptState
  deriving DecidableEq, Repr

/-- `get_todos`: open `todos.json` and `json.load` its content. -/
def get_todos : File → Except LoadError (List Todo)
  | .missing => .error .storageUnavailable
  | .unreadable => .error .storageUnavailable
  | .corrupt => .error .corruptState
  | .good todos => .ok todos

/-- `save_todo`: re-read the collection, append the record, rewrite
the whole file.  The read happens before the file is opened for
writing, so a failing read leaves the file untouched. -/
def save_todo (todo : Todo) (f : File) : Except LoadError File :=
  match get_todos f with
  | .error e => .error e
  | .ok todos => .ok (.good (todos ++ [todo]))

/-- HTTP responses the handlers produce. -/
inductive Response where
  /-- `200` with body `{"todos": [...]}` (from `list_todos`). -/
  | okTodos (todos : List Todo)
  /-- `200` with the todo object as body (from `get_todo`). -/
  | okTodo (todo : Todo)
  /-- `200` with body `{"msg": msg}` (from `add_todo`). -/
  | okMsg (msg : String)
  /-- `404` via `abort(404)`. -/
  | notFound
  /-- `406` with body
  `{"success": success, "message": message, "errors": errors}`. -/
  | invalidInput (success : Bool) (message : String)
      (errors : List String)
  /-- An unhandled exception escaping the handler: Flask renders a
  generic server error. -/
  | serverError (e : LoadError)
  deriving DecidableEq, Repr

/-- `GET /todos`: load everything and wrap it as `{"todos": [...]}`. -/
def list_todos (f : File) : Response × File :=
  match get_todos f with
  | .error e => (.serverError e, f)
  | .ok todos => (.okTodos todos, f)

/-- The `for todo in todos: if todo["id"] == id: return ...` loop of
`get_todo`, falling through to `abort(404)`. -/
def scan_todos (id : Int) : List Todo → Response
  | [] => .notFound
  | todo :: rest => if todo.id = id then .okTodo todo else scan_todos id rest

/-- `GET /todos/<int:id>`: load, scan for the first matching id. -/
def get_todo (id : Int) (f : File) : Response × File :=
  match get_todos f with
  | .error e => (.serverError e, f)
  | .ok todos => (scan_todos id todos, f)

/-- The `todo = dict(id=..., userId=..., title=..., completed=...)`
record built by `add_todo`: `id` is the loaded count plus one and the
other fields come from the posted body, `completed` defaulting to
`False` when absent. -/
def built_todo (posted : JVal) (todos : List Todo) : Todo :=
  { id := (todos.length : Int) + 1
    userId := asString ((posted.get "userId").getD .null)
    title := asString ((posted.get "title").getD .null)
    completed :=
      match posted.get "completed" with
      | some v => asBool v
      | none => false }

/-- `POST /todos` as wrapped by `validate_schema(input_todo_schema)`:
the decorator collects the validation errors and answers `406` with
them when any exist; otherwise `add_todo` loads the collection,
builds the record and saves it.  A load failure escapes as an
unhandled exception before any write. -/
def add_todo (posted : JVal) (f : File) : Response × File :=
  let errors := iter_errors posted
  if errors = [] then
    match get_todos f with
    | .error e => (.serverError e, f)
    | .ok todos =>
      match save_todo (built_todo posted todos) f with
      | .error e => (.serverError e, f)
      | .ok f2 => (.okMsg "todo saved", f2)
  else
    (.invalidInput false "invalid input" errors, f)

/-! ## Helper lemmas -/

/-- Only JSON objects validate: any other instance trips the
`type: object` keyword. -/
theorem valid_obj (p : JVal) (hv : iter_errors p = []) :
    ∃ fs, p = .obj fs := by
  cases p
  case obj fs => exact ⟨fs, rfl⟩
  all_goals simp [iter_errors] at hv

/-- An object validates exactly when each keyword yields no error. -/
theorem iter_errors_obj_eq_nil (fs : List (String × JVal)) :
    iter_errors (.obj fs) = [] ↔
      propertiesErrors fs = [] ∧ additionalPropertiesErrors fs = [] ∧
        requiredErrors fs = [] := by
  simp [iter_errors]

/-- The `required` keyword is silent exactly when both required
properties are present. -/
theorem requiredErrors_eq_nil (fs : List (String × JVal)) :
    requiredErrors fs = [] ↔
      (jlookup fs "userId").isSome ∧ (jlookup fs "title").isSome := by
  unfold requiredErrors
  cases jlookup fs "userId" <;> cases jlookup fs "title" <;> simp

/-- The string subschema is silent exactly on strings of at most 255
characters. -/
theorem stringPropErrors_eq_nil (v : JVal) :
    stringPropErrors v = [] ↔ ∃ s, v = .str s ∧ s.length ≤ 255 := by
  cases v <;> simp [stringPropErrors]

/-- The boolean subschema is silent exactly on booleans. -/
theorem booleanPropErrors_eq_nil (v : JVal) :
    booleanPropErrors v = [] ↔ ∃ b, v = .bool b := by
  cases v <;> simp [booleanPropErrors]

/-- The `properties` keyword is silent exactly when every declared
property check is. -/
theorem propertiesErrors_eq_nil (fs : List (String × JVal)) :
    propertiesErrors fs = [] ↔
      presentPropErrors fs "id" stringPropErrors = [] ∧
      presentPropErrors fs "userId" stringPropErrors = [] ∧
      presentPropErrors fs "title" stringPropErrors = [] ∧
      presentPropErrors fs "completed" booleanPropErrors = [] := by
  simp [propertiesErrors]

/-- What a payload that passes validation must look like. -/
theorem valid_payload_fields (fs : List (String × JVal))
    (hv : iter_errors (.obj fs) = []) :
    ∃ su st,
      jlookup fs "userId" = some (.str su) ∧ su.length ≤ 255 ∧
      jlookup fs "title" = some (.str st) ∧ st.length ≤ 255 ∧
      (jlookup fs "completed" = none ∨
        ∃ b, jlookup fs "completed" = some (.bool b)) := by
  obtain ⟨hP, hA, hR⟩ := (iter_errors_obj_eq_nil fs).mp hv
  obtain ⟨hu, ht⟩ := (requiredErrors_eq_nil fs).mp hR
  obtain ⟨-, hPu, hPt, hPc⟩ := (propertiesErrors_eq_nil fs).mp hP
  obtain ⟨vu, hvu⟩ := Option.isSome_iff_exists.mp hu
  obtain ⟨vt, hvt⟩ := Option.isSome_iff_exists.mp ht
  rw [presentPropErrors, hvu] at hPu
  rw [presentPropErrors, hvt] at hPt
  obtain ⟨su, rfl, hsu⟩ := (stringPropErrors_eq_nil vu).mp hPu
  obtain ⟨st, rfl, hst⟩ := (stringPropErrors_eq_nil vt).mp hPt
  refine ⟨su, st, hvu, hsu, hvt, hst, ?_⟩
  rw [presentPropErrors] at hPc
  cases hc : jlookup fs "completed" with
  | none => exact .inl rfl
  | some vc =>
      rw [hc] at hPc
      obtain ⟨b, rfl⟩ := (booleanPropErrors_eq_nil vc).mp hPc
      exact .inr ⟨b, rfl⟩

/-- On a valid payload and a readable store, `add_todo` takes the
success path and appends `built_todo`. -/
theorem add_todo_valid (p : JVal) (ts : List Todo)
    (hv : iter_errors p = []) :
    add_todo p (.good ts) =
      (.okMsg "todo saved", .good (ts ++ [built_todo p ts])) := by
  simp [add_todo, hv, get_todos, save_todo]

/-- A scan that misses every element of a prefix continues on the
suffix. -/
theorem scan_todos_append (id : Int) (ts : List Todo) (t : Todo)
    (h : ∀ u ∈ ts, u.id ≠ id) :
    scan_todos id (ts ++ [t]) = scan_todos id [t] := by
  induction ts with
  | nil => rfl
  | cons a rest ih =>
      have ha : ¬ a.id = id := h a (List.mem_cons_self a rest)
      simp only [List.cons_append, scan_todos, if_neg ha]
      exact ih (fun u hu => h u (List.mem_cons_of_mem a hu))

/-- The scan falls through to `abort(404)` exactly when no element
matches. -/
theorem scan_todos_eq_notFound (id : Int) (ts : List Todo) :
    scan_todos id ts = .notFound ↔ ∀ t ∈ ts, t.id ≠ id := by
  induction ts with
  | nil => simp [scan_todos]
  | cons a rest ih =>
      by_cases ha : a.id = id
      · simp only [scan_todos, if_pos ha]
        exact ⟨fun h => Response.noConfusion h,
               fun h => absurd ha (h a (List.mem_cons_self a rest))⟩
      · simp only [scan_todos, if_neg ha, ih, List.mem_cons]
        constructor
        · rintro h t (rfl | ht)
          · exact ha
          · exact h t ht
        · intro h t ht
          exact h t (.inr ht)

/-- A returned todo matches the id and is the first match in the
collection. -/
theorem scan_todos_eq_okTodo (id : Int) (ts : List Todo) (t : Todo)
    (h : scan_todos id ts = .okTodo t) :
    t.id = id ∧ ∃ pre post, ts = pre ++ t :: post ∧ ∀ u ∈ pre, u.id ≠ id := by
  induction ts with
  | nil => exact Response.noConfusion h
  | cons a rest ih =>
      by_cases ha : a.id = id
      · simp only [scan_todos, if_pos ha] at h
        injection h with h2
        subst h2
        exact ⟨ha, [], rest, rfl, by simp⟩
      · simp only [scan_todos, if_neg ha] at h
        obtain ⟨hid, pre, post, hts, hpre⟩ := ih h
        refine ⟨hid, a :: pre, post, by rw [hts]; rfl, ?_⟩
        intro u hu
        rcases List.mem_cons.mp hu with rfl | h2
        · exact ha
        · exact hpre u h2

/-- The scan only ever answers a todo or `404`. -/
theorem scan_todos_shape (id : Int) (ts : List Todo) :
    (∃ t, scan_todos id ts = .okTodo t) ∨ scan_todos id ts = .notFound := by
  induction ts with
  | nil => exact .inr rfl
  | cons a rest ih =>
      by_cases ha : a.id = id
      · exact .inl ⟨a, by simp [scan_todos, ha]⟩
      · simpa [scan_todos, ha] using ih

/-! ## Claim theorems -/

/-- C1: for every valid creation payload and every loadable store,
`add_todo` answers `{"msg": "todo saved"}` and appends exactly one new
todo at the end, leaving every previously stored todo unchanged and in
its original position, so the length grows by exactly one and the new
id equals the prior length plus one. -/
theorem create_appends_one_todo (p : JVal) (ts : List Todo)
    (hv : iter_errors p = []) :
    ∃ t : Todo,
      add_todo p (.good ts) = (.okMsg "todo saved", .good (ts ++ [t])) ∧
      t.id = (ts.length : Int) + 1 ∧
      (ts ++ [t]).length = ts.length + 1 := by
  exact ⟨built_todo p ts, add_todo_valid p ts hv, rfl, by simp⟩

/-- Witness for C1: the payload `{"userId": "u1", "title": "buy milk"}`
posted against the empty store. -/
theorem create_appends_one_todo_witness :
    ∃ t : Todo,
      add_todo (.obj [("userId", .str "u1"), ("title", .str "buy milk")])
          (.good []) = (.okMsg "todo saved", .good ([] ++ [t])) ∧
      t.id = (([] : List Todo).length : Int) + 1 ∧
      (([] : List Todo) ++ [t]).length = ([] : List Todo).length + 1 :=
  create_appends_one_todo _ [] rfl

/-- C2: any payload that is missing `userId` or `title`, carries a key
outside the schema, has a string field over 255 characters, or a field
of the wrong type, is rejected with the `406` body
`{"success": false, "message": "invalid input", "errors": [...]}` and
the stored collection is unchanged. -/
theorem invalid_payload_rejected (fs : List (String × JVal)) (f : File)
    (hbad :
      jlookup fs "userId" = none ∨
      jlookup fs "title" = none ∨
      extraKeys fs ≠ [] ∨
      (∃ k s, (k = "id" ∨ k = "userId" ∨ k = "title") ∧
        jlookup fs k = some (.str s) ∧ 255 < s.length) ∨
      (∃ k v, (k = "id" ∨ k = "userId" ∨ k = "title") ∧
        jlookup fs k = some v ∧ isStr v = false) ∨
      (∃ v, jlookup fs "completed" = some v ∧ isBool v = false)) :
    iter_errors (.obj fs) ≠ [] ∧
    add_todo (.obj fs) f =
      (.invalidInput false "invalid input" (iter_errors (.obj fs)), f) := by
  have herr : iter_errors (.obj fs) ≠ [] := by
    intro hv
    obtain ⟨hP, hA, hR⟩ := (iter_errors_obj_eq_nil fs).mp hv
    obtain ⟨hPi, hPu, hPt, hPc⟩ := (propertiesErrors_eq_nil fs).mp hP
    obtain ⟨hru, hrt⟩ := (requiredErrors_eq_nil fs).mp hR
    rcases hbad with hu | ht | hx | ⟨k, s, hk, hks, hs⟩ |
        ⟨k, v, hk, hkv, hv2⟩ | ⟨v, hcv, hv2⟩
    · rw [hu] at hru; simp at hru
    · rw [ht] at hrt; simp at hrt
    · cases hEK : extraKeys fs with
      | nil => exact hx hEK
      | cons a l => simp [additionalPropertiesErrors, hEK] at hA
    · have hfired : stringPropErrors (.str s) = [] := by
        rcases hk with rfl | rfl | rfl
        · rw [presentPropErrors, hks] at hPi; exact hPi
        · rw [presentPropErrors, hks] at hPu; exact hPu
        · rw [presentPropErrors, hks] at hPt; exact hPt
      obtain ⟨s2, hs2, hlen⟩ := (stringPropErrors_eq_nil _).mp hfired
      injection hs2 with hs2
      subst hs2
      omega
    · have hfired : stringPropErrors v = [] := by
        rcases hk with rfl | rfl | rfl
        · rw [presentPropErrors, hkv] at hPi; exact hPi
        · rw [presentPropErrors, hkv] at hPu; exact hPu
        · rw [presentPropErrors, hkv] at hPt; exact hPt
      obtain ⟨s2, rfl, -⟩ := (stringPropErrors_eq_nil _).mp hfired
      simp [isStr] at hv2
    · rw [presentPropErrors, hcv] at hPc
      obtain ⟨b, rfl⟩ := (booleanPropErrors_eq_nil _).mp hPc
      simp [isBool] at hv2
  exact ⟨herr, by simp [add_todo, herr]⟩

/-- Witness for C2: the spec scenario `POST {"title": "no user"}`,
which lacks the required `userId`, against the empty store. -/
theorem invalid_payload_rejected_witness :
    iter_errors (.obj [("title", .str "no user")]) ≠ [] ∧
    add_todo (.obj [("title", .str "no user")]) (.good []) =
      (.invalidInput false "invalid input"
        (iter_errors (.obj [("title", .str "no user")])), .good []) :=
  invalid_payload_rejected _ _ (.inl rfl)

/-- C3 counterexample: the claim fails on a loadable store whose
existing todo already carries the id the new todo will be assigned.
Store `[{id: 2, userId: "a", title: "b", completed: false}]` has
length 1, so the valid payload `{"userId": "u1", "title": "t1"}` is
assigned id `1 + 1 = 2`; `get_todo 2` then returns the first match,
the pre-existing todo, whose `userId` is `"a"`, not the created
todo. -/
theorem create_roundtrip_counterexample :
    iter_errors (.obj [("userId", .str "u1"), ("title", .str "t1")]) = [] ∧
    ([({ id := 2, userId := "a", title := "b", completed := false } :
        Todo)].length : Int) + 1 = 2 ∧
    (get_todo 2
      (add_todo (.obj [("userId", .str "u1"), ("title", .str "t1")])
        (.good [{ id := 2, userId := "a", title := "b",
                  completed := false }])).2).1 =
      .okTodo { id := 2, userId := "a", title := "b", completed := false } ∧
    ("a" : String) ≠ "u1" := by
  exact ⟨rfl, rfl, rfl, by decide⟩

/-- C3 amended: a todo created via `add_todo` is retrievable unchanged
(same `userId`, `title`, `completed`) via `get_todo` at the assigned id
(prior length + 1), provided no previously stored todo already carries
that id. -/
theorem create_roundtrip_amended (p : JVal) (ts : List Todo)
    (hv : iter_errors p = [])
    (hfresh : ∀ u ∈ ts, u.id ≠ (ts.length : Int) + 1) :
    ∃ t : Todo,
      (get_todo ((ts.length : Int) + 1) (add_todo p (.good ts)).2).1 =
        .okTodo t ∧
      p.get "userId" = some (.str t.userId) ∧
      p.get "title" = some (.str t.title) ∧
      (p.get "completed" = none → t.completed = false) ∧
      (∀ b, p.get "completed" = some (.bool b) → t.completed = b) := by
  obtain ⟨fs, rfl⟩ := valid_obj p hv
  obtain ⟨su, st, hu, -, ht, -, -⟩ := valid_payload_fields fs hv
  refine ⟨built_todo (.obj fs) ts, ?_, ?_, ?_, ?_, ?_⟩
  · rw [add_todo_valid _ ts hv]
    show (get_todo ((ts.length : Int) + 1)
      (.good (ts ++ [built_todo (.obj fs) ts]))).1 = _
    show scan_todos ((ts.length : Int) + 1)
      (ts ++ [built_todo (.obj fs) ts]) = _
    rw [scan_todos_append _ _ _ hfresh]
    simp [scan_todos, built_todo]
  · simp [built_todo, JVal.get, hu, asString]
  · simp [built_todo, JVal.get, ht, asString]
  · intro hc
    simp only [JVal.get] at hc
    simp [built_todo, JVal.get, hc]
  · intro b hc
    simp only [JVal.get] at hc
    simp [built_todo, JVal.get, hc, asBool]

/-- Witness for C3 amended: the spec scenario `{"userId": "u1",
"title": "buy milk"}` posted to the empty store, read back at id 1. -/
theorem create_roundtrip_amended_witness :
    ∃ t : Todo,
      (get_todo ((([] : List Todo).length : Int) + 1)
        (add_todo (.obj [("userId", .str "u1"), ("title", .str "buy milk")])
          (.good [])).2).1 = .okTodo t ∧
      JVal.get (.obj [("userId", .str "u1"), ("title", .str "buy milk")])
          "userId" = some (.str t.userId) ∧
      JVal.get (.obj [("userId", .str "u1"), ("title", .str "buy milk")])
          "title" = some (.str t.title) ∧
      (JVal.get (.obj [("userId", .str "u1"), ("title", .str "buy milk")])
          "completed" = none → t.completed = false) ∧
      (∀ b, JVal.get (.obj [("userId", .str "u1"), ("title", .str "buy milk")])
          "completed" = some (.bool b) → t.completed = b) :=
  create_roundtrip_amended _ [] rfl (by intro u hu; cases hu)

/-- C4 counterexample: the schema carries no `minLength`, so the
payload with `userId` and `title` both the empty string validates with
no errors and `add_todo` persists a todo whose `userId` and `title`
are empty — refuting both the non-emptiness invariant and the claim
that empty-string fields are rejected. -/
theorem nonempty_fields_counterexample :
    iter_errors (.obj [("userId", .str ""), ("title", .str "")]) = [] ∧
    add_todo (.obj [("userId", .str ""), ("title", .str "")]) (.good []) =
      (.okMsg "todo saved",
       .good [{ id := 1, userId := "", title := "", completed := false }]) ∧
    Todo.userId { id := 1, userId := "", title := "", completed := false }
      = "" := by
  exact ⟨rfl, rfl, rfl⟩

/-- C4 amended: every todo persisted by `add_todo` has `userId` and
`title` *present* as strings of at most 255 characters taken from the
payload (the schema requires the fields but does not forbid empty
strings), and a payload missing `userId` or `title` is rejected with
the store left unchanged. -/
theorem persisted_fields_present :
    (∀ (p : JVal) (ts : List Todo), iter_errors p = [] →
      ∃ t su st,
        add_todo p (.good ts) = (.okMsg "todo saved", .good (ts ++ [t])) ∧
        p.get "userId" = some (.str su) ∧ t.userId = su ∧ su.length ≤ 255 ∧
        p.get "title" = some (.str st) ∧ t.title = st ∧ st.length ≤ 255) ∧
    (∀ (fs : List (String × JVal)) (f : File),
      (jlookup fs "userId" = none ∨ jlookup fs "title" = none) →
      iter_errors (.obj fs) ≠ [] ∧ (add_todo (.obj fs) f).2 = f) := by
  constructor
  · intro p ts hv
    obtain ⟨fs, rfl⟩ := valid_obj p hv
    obtain ⟨su, st, hu, hsu, ht, hst, -⟩ := valid_payload_fields fs hv
    refine ⟨built_todo (.obj fs) ts, su, st, add_todo_valid _ ts hv,
      ?_, ?_, hsu, ?_, ?_, hst⟩
    · simp only [JVal.get]; exact hu
    · simp [built_todo, JVal.get, hu, asString]
    · simp only [JVal.get]; exact ht
    · simp [built_todo, JVal.get, ht, asString]
  · intro fs f hmiss
    have h := invalid_payload_rejected fs f (by
      rcases hmiss with h | h
      · exact .inl h
      · exact .inr (.inl h))
    exact ⟨h.1, by rw [h.2]⟩

/-- Witness for C4 amended: the valid payload
`{"userId": "u1", "title": "t1"}` on the empty store for the first
part, and the payload `{}` (missing both required fields) for the
second. -/
theorem persisted_fields_present_witness :
    (∃ t su st,
      add_todo (.obj [("userId", .str "u1"), ("title", .str "t1")])
          (.good []) = (.okMsg "todo saved", .good ([] ++ [t])) ∧
      JVal.get (.obj [("userId", .str "u1"), ("title", .str "t1")])
          "userId" = some (.str su) ∧ t.userId = su ∧ su.length ≤ 255 ∧
      JVal.get (.obj [("userId", .str "u1"), ("title", .str "t1")])
          "title" = some (.str st) ∧ t.title = st ∧ st.length ≤ 255) ∧
    (iter_errors (.obj []) ≠ [] ∧ (add_todo (.obj []) (.good [])).2 = .good []) :=
  ⟨persisted_fields_present.1 _ [] rfl,
   persisted_fields_present.2 [] (.good []) (.inl rfl)⟩

/-- C5: `get_todo` on a loadable store returns the first stored todo
whose id equals the requested integer, answers `404` exactly when no
stored todo carries that id, and never answers anything else. -/
theorem get_by_id_first_match (id : Int) (ts : List Todo) :
    ((get_todo id (.good ts)).1 = .notFound ↔ ∀ t ∈ ts, t.id ≠ id) ∧
    (∀ t : Todo, (get_todo id (.good ts)).1 = .okTodo t →
      t.id = id ∧ ∃ pre post, ts = pre ++ t :: post ∧ ∀ u ∈ pre, u.id ≠ id) ∧
    ((∃ t, (get_todo id (.good ts)).1 = .okTodo t) ∨
      (get_todo id (.good ts)).1 = .notFound) :=
  ⟨scan_todos_eq_notFound id ts,
   fun t h => scan_todos_eq_okTodo id ts t h,
   scan_todos_shape id ts⟩

/-- Witness for C5: the spec scenario `GET /todos/999` on a store with
the single todo of id 1, which answers `404`. -/
theorem get_by_id_first_match_witness :
    ((get_todo 999
        (.good [{ id := 1, userId := "u", title := "t",
                  completed := false }])).1 = .notFound ↔
      ∀ t ∈ [({ id := 1, userId := "u", title := "t",
                completed := false } : Todo)], t.id ≠ 999) ∧
    (∀ t : Todo,
      (get_todo 999
        (.good [{ id := 1, userId := "u", title := "t",
                  completed := false }])).1 = .okTodo t →
      t.id = 999 ∧ ∃ pre post,
        [({ id := 1, userId := "u", title := "t",
            completed := false } : Todo)] = pre ++ t :: post ∧
        ∀ u ∈ pre, u.id ≠ 999) ∧
    ((∃ t, (get_todo 999
        (.good [{ id := 1, userId := "u", title := "t",
                  completed := false }])).1 = .okTodo t) ∨
      (get_todo 999
        (.good [{ id := 1, userId := "u", title := "t",
                  completed := false }])).1 = .notFound) :=
  get_by_id_first_match 999 _

/-- C6: on an otherwise valid payload, the stored todo's `completed`
is `false` when the field is omitted and the posted boolean when it is
present. -/
theorem completed_defaults_false (p : JVal) (ts : List Todo)
    (hv : iter_errors p = []) :
    ∃ t : Todo,
      add_todo p (.good ts) = (.okMsg "todo saved", .good (ts ++ [t])) ∧
      (p.get "completed" = none → t.completed = false) ∧
      (∀ b, p.get "completed" = some (.bool b) → t.completed = b) := by
  refine ⟨built_todo p ts, add_todo_valid p ts hv, ?_, ?_⟩
  · intro h
    simp [built_todo, h]
  · intro b h
    simp [built_todo, h, asBool]

/-- Witness for C6: the payload `{"userId": "u", "title": "t"}` with
`completed` omitted, on the empty store. -/
theorem completed_defaults_false_witness :
    ∃ t : Todo,
      add_todo (.obj [("userId", .str "u"), ("title", .str "t")])
          (.good []) = (.okMsg "todo saved", .good ([] ++ [t])) ∧
      (JVal.get (.obj [("userId", .str "u"), ("title", .str "t")])
          "completed" = none → t.completed = false) ∧
      (∀ b, JVal.get (.obj [("userId", .str "u"), ("title", .str "t")])
          "completed" = some (.bool b) → t.completed = b) :=
  completed_defaults_false _ [] rfl

/-- C7: `get_todos` fails with `storageUnavailable` when the backing
file is missing or unreadable and with `corruptState` when its content
does not parse; whenever the load fails during a create, the file is
left exactly as it was (no write occurs) and, on a valid payload, the
fault escapes as a generic server error. -/
theorem load_failure_taxonomy (p : JVal) (f : File) (e : LoadError)
    (h : get_todos f = .error e) :
    get_todos .missing = .error .storageUnavailable ∧
    get_todos .unreadable = .error .storageUnavailable ∧
    get_todos .corrupt = .error .corruptState ∧
    (add_todo p f).2 = f ∧
    (iter_errors p = [] → (add_todo p f).1 = .serverError e) := by
  refine ⟨rfl, rfl, rfl, ?_, ?_⟩
  · by_cases hv : iter_errors p = []
    · simp [add_todo, hv, h]
    · simp [add_todo, hv]
  · intro hv
    simp [add_todo, hv, h]

/-- Witness for C7: a valid payload posted while `todos.json` is
missing. -/
theorem load_failure_taxonomy_witness :
    get_todos .missing = .error .storageUnavailable ∧
    get_todos .unreadable = .error .storageUnavailable ∧
    get_todos .corrupt = .error .corruptState ∧
    (add_todo (.obj [("userId", .str "u"), ("title", .str "t")])
        .missing).2 = .missing ∧
    (iter_errors (.obj [("userId", .str "u"), ("title", .str "t")]) = [] →
      (add_todo (.obj [("userId", .str "u"), ("title", .str "t")])
        .missing).1 = .serverError .storageUnavailable) :=
  load_failure_taxonomy _ .missing .storageUnavailable rfl

/-- C8: on a loadable store, `list_todos` answers the full ordered
collection wrapped as `{"todos": [...]}` and neither `list_todos` nor
`get_todo` changes the stored collection. -/
theorem reads_never_mutate (f : File) (id : Int) (ts : List Todo)
    (hf : f = .good ts) :
    list_todos f = (.okTodos ts, f) ∧ (get_todo id f).2 = f := by
  subst hf
  exact ⟨rfl, rfl⟩

/-- Witness for C8: a store holding one todo, read by `list_todos` and
by `get_todo 1`. -/
theorem reads_never_mutate_witness :
    list_todos (.good [{ id := 1, userId := "u", title := "t",
                         completed := false }]) =
      (.okTodos [{ id := 1, userId := "u", title := "t",
                   completed := false }],
       .good [{ id := 1, userId := "u", title := "t",
                completed := false }]) ∧
    (get_todo 1 (.good [{ id := 1, userId := "u", title := "t",
                          completed := false }])).2 =
      .good [{ id := 1, userId := "u", title := "t",
               completed := false }] :=
  reads_never_mutate _ 1 _ rfl

/-- C9: the validator collects every violation rather than stopping at
the first: a payload missing both `userId` and `title` carries both
required-property messages, hence at least two errors, and the `406`
response body carries exactly that collected list. -/
theorem validator_collects_all_violations (fs : List (String × JVal))
    (f : File)
    (hu : jlookup fs "userId" = none) (ht : jlookup fs "title" = none) :
    requiredMessage "userId" ∈ iter_errors (.obj fs) ∧
    requiredMessage "title" ∈ iter_errors (.obj fs) ∧
    2 ≤ (iter_errors (.obj fs)).length ∧
    add_todo (.obj fs) f =
      (.invalidInput false "invalid input" (iter_errors (.obj fs)), f) := by
  have hreq : requiredErrors fs =
      [requiredMessage "userId", requiredMessage "title"] := by
    simp [requiredErrors, hu, ht]
  have hiter : iter_errors (.obj fs) =
      propertiesErrors fs ++ additionalPropertiesErrors fs ++
        [requiredMessage "userId", requiredMessage "title"] := by
    simp [iter_errors, hreq]
  have hne : iter_errors (.obj fs) ≠ [] := by
    rw [hiter]; simp
  refine ⟨?_, ?_, ?_, ?_⟩
  · rw [hiter]; simp
  · rw [hiter]; simp
  · rw [hiter]; simp; omega
  · simp [add_todo, hne]

/-- Witness for C9: the empty-object payload `{}`, which misses both
required fields, against the empty store. -/
theorem validator_collects_all_violations_witness :
    requiredMessage "userId" ∈ iter_errors (.obj []) ∧
    requiredMessage "title" ∈ iter_errors (.obj []) ∧
    2 ≤ (iter_errors (.obj [])).length ∧
    add_todo (.obj []) (.good []) =
      (.invalidInput false "invalid input" (iter_errors (.obj [])),
       .good []) :=
  validator_collects_all_violations [] (.good []) rfl rfl

/-- C10: two valid payloads that agree on every key other than the
optional posted `id` drive `add_todo` to the very same response and
the very same stored file, and on a loadable store the assigned id is
always the prior count plus one — the posted `id` never influences
it. -/
theorem posted_id_no_influence (fs1 fs2 : List (String × JVal)) (f : File)
    (h1 : iter_errors (.obj fs1) = []) (h2 : iter_errors (.obj fs2) = [])
    (hagree : ∀ k, k ≠ "id" → jlookup fs1 k = jlookup fs2 k) :
    add_todo (.obj fs1) f = add_todo (.obj fs2) f ∧
    (∀ ts, f = .good ts →
      ∃ t : Todo,
        add_todo (.obj fs1) f = (.okMsg "todo saved", .good (ts ++ [t])) ∧
        t.id = (ts.length : Int) + 1) := by
  have hu : jlookup fs1 "userId" = jlookup fs2 "userId" :=
    hagree _ (by decide)
  have htl : jlookup fs1 "title" = jlookup fs2 "title" :=
    hagree _ (by decide)
  have hc : jlookup fs1 "completed" = jlookup fs2 "completed" :=
    hagree _ (by decide)
  have hbuilt : ∀ ts, built_todo (.obj fs1) ts = built_todo (.obj fs2) ts := by
    intro ts
    simp [built_todo, JVal.get, hu, htl, hc]
  constructor
  · cases f <;> simp [add_todo, h1, h2, get_todos, save_todo, hbuilt]
  · rintro ts rfl
    exact ⟨built_todo (.obj fs1) ts, add_todo_valid _ ts h1, rfl⟩

/-- Witness for C10: the payloads `{"id": "999", "userId": "u",
"title": "t"}` and `{"userId": "u", "title": "t"}`, which differ only
in the posted `id`, against the empty store. -/
theorem posted_id_no_influence_witness :
    add_todo (.obj [("id", .str "999"), ("userId", .str "u"),
        ("title", .str "t")]) (.good []) =
      add_todo (.obj [("userId", .str "u"), ("title", .str "t")])
        (.good []) ∧
    (∀ ts, (.good [] : File) = .good ts →
      ∃ t : Todo,
        add_todo (.obj [("id", .str "999"), ("userId", .str "u"),
            ("title", .str "t")]) (.good []) =
          (.okMsg "todo saved", .good (ts ++ [t])) ∧
        t.id = (ts.length : Int) + 1) :=
  posted_id_no_influence _ _ _ rfl rfl (by
    intro k hk
    simp only [jlookup]
    rw [if_neg (fun h => hk h.symm)])

end FlaskTodo
